import Mathlib

/-!
Verification of the Amplitude profiler plugin core: a shallow embedding of the
message queue (`ProfilerMessageQueue`), the configuration record
(`ProfilerConfig`) and its `Validate` check, the distribution manager
(`ProfilerManager`), the connection server's client table and lock discipline
(`ProfilerServer`), the snapshot message-id counter, and the wire encoder
(`_serializeProfilerData`), together with theorems settling the specified
properties.

Machine integers are modelled as `Nat` (with an explicit `% 2 ^ 64` where the
64-bit wrap of the message-id counter matters); the `float` configuration
fields are modelled as `Rat` holding the decimal values of the source's
literals, which decides every comparison the source performs exactly as the
floats do for the values at stake.  Strings are `String`.  Payload fields that
no modelled operation reads are omitted from the snapshot records.
-/

namespace AmplitudeProfiler

/-- Category bit flags, from `Types.h` (`eProfilerCategory`). -/
inductive eProfilerCategory where
  | none
  | engine
  | entity
  | channel
  | listener
  | environment
  | performance
  | memory
  | events
  | all
  deriving DecidableEq, Repr

/-- The numeric value of each category flag, as declared in `Types.h`. -/
def eProfilerCategory.toMask : eProfilerCategory → Nat
  | .none => 0
  | .engine => 1
  | .entity => 2
  | .channel => 4
  | .listener => 8
  | .environment => 16
  | .performance => 32
  | .memory => 64
  | .events => 128
  | .all => 0xFFFFFFFF

/-- Priority levels, from `Types.h` (`eProfilerPriority`). -/
inductive eProfilerPriority where
  | low
  | normal
  | high
  | critical
  deriving DecidableEq, Repr

/-- Numeric value of each priority, as declared in `Types.h`. -/
def eProfilerPriority.toNat : eProfilerPriority → Nat
  | .low => 0
  | .normal => 1
  | .high => 2
  | .critical => 3

/-- Update modes, from `Types.h` (`eProfilerUpdateMode`). -/
inductive eProfilerUpdateMode where
  | timed
  | onChange
  | perFrame
  | manual
  deriving DecidableEq, Repr

/-- Log levels, from the engine's `eLogMessageLevel` (only carried, never
inspected by the modelled operations). -/
inductive eLogMessageLevel where
  | debug
  | info
  | warning
  | error
  | critical
  | success
  deriving DecidableEq, Repr

/-- `kDefaultProfilerPort` from `Types.h`. -/
def kDefaultProfilerPort : Nat := 27002

/-- `kMaxProfilerClients` from `Types.h`. -/
def kMaxProfilerClients : Nat := 8

/-- `kProfilerMessageBufferSize` from `Types.h` (1 MB). -/
def kProfilerMessageBufferSize : Nat := 1024 * 1024

/-- A 3-vector of reals (`AmVec3`), as read by the wire encoder through
`mPosition[0]`, `mPosition[1]`, `mPosition[2]`. -/
structure Vec3 where
  x : Rat
  y : Rat
  z : Rat
  deriving DecidableEq, Repr

/-- `ProfilerEngineData` (`Data.h`): base snapshot fields (timestamp in
microseconds since epoch, message id, category, priority) plus the engine
fields the wire encoder reads. -/
structure ProfilerEngineData where
  mTimestamp : Nat
  mMessageId : Nat
  mCategory : eProfilerCategory
  mPriority : eProfilerPriority
  mIsInitialized : Bool
  mEngineUptime : Rat
  mConfigFile : String
  mTotalEntityCount : Nat
  mActiveEntityCount : Nat
  mTotalChannelCount : Nat
  mActiveChannelCount : Nat
  mTotalListenerCount : Nat
  mActiveListenerCount : Nat
  mCpuUsagePercent : Rat
  mMemoryUsageBytes : Nat
  mActiveVoiceCount : Nat
  mMaxVoiceCount : Nat
  mSampleRate : Nat
  mMasterGain : Rat
  deriving DecidableEq, Repr

/-- `ProfilerEntityData` (`Data.h`): base fields plus the entity fields the
wire encoder reads. -/
structure ProfilerEntityData where
  mTimestamp : Nat
  mMessageId : Nat
  mCategory : eProfilerCategory
  mPriority : eProfilerPriority
  mEntityId : Nat
  mPosition : Vec3
  mVelocity : Vec3
  mActiveChannelCount : Nat
  mDistanceToListener : Rat
  mObstruction : Rat
  mOcclusion : Rat
  deriving DecidableEq, Repr

/-- `ProfilerChannelData` (`Data.h`): base fields plus the channel fields the
wire encoder reads (`mPlaybackState` is the enum's numeric value). -/
structure ProfilerChannelData where
  mTimestamp : Nat
  mMessageId : Nat
  mCategory : eProfilerCategory
  mPriority : eProfilerPriority
  mChannelId : Nat
  mPlaybackState : Nat
  mSourceEntityId : Nat
  mSoundName : String
  mGain : Rat
  mDistanceToListener : Rat
  deriving DecidableEq, Repr

/-- `ProfilerListenerData` (`Data.h`): base fields plus the listener fields
the wire encoder reads. -/
structure ProfilerListenerData where
  mTimestamp : Nat
  mMessageId : Nat
  mCategory : eProfilerCategory
  mPriority : eProfilerPriority
  mListenerId : Nat
  mPosition : Vec3
  mGain : Rat
  mCurrentEnvironment : String
  deriving DecidableEq, Repr

/-- `ProfilerPerformanceData` (`Data.h`): base fields plus the performance
fields the wire encoder reads. -/
structure ProfilerPerformanceData where
  mTimestamp : Nat
  mMessageId : Nat
  mCategory : eProfilerCategory
  mPriority : eProfilerPriority
  mTotalCpuUsage : Rat
  mMixerCpuUsage : Rat
  mDspCpuUsage : Rat
  mTotalAllocatedMemory : Nat
  mEngineMemory : Nat
  mProcessedSamples : Nat
  mLatencyMs : Rat
  deriving DecidableEq, Repr

/-- `ProfilerEvent` (`Data.h`): base fields plus name, description and the
parameter map (modelled as an association list). -/
structure ProfilerEvent where
  mTimestamp : Nat
  mMessageId : Nat
  mCategory : eProfilerCategory
  mPriority : eProfilerPriority
  mEventName : String
  mDescription : String
  mParameters : List (String × Rat)
  deriving DecidableEq, Repr

/-- `ProfilerDataVariant` (`Data.h`): the closed sum over the six snapshot
kinds, in the source's alternative order. -/
inductive ProfilerDataVariant where
  | engine (d : ProfilerEngineData)
  | entity (d : ProfilerEntityData)
  | channel (d : ProfilerChannelData)
  | listener (d : ProfilerListenerData)
  | performance (d : ProfilerPerformanceData)
  | event (d : ProfilerEvent)
  deriving DecidableEq, Repr

/-- `ProfilerMessageQueue` state (`Messaging.h`): the FIFO of variants
(front at the head), the configured maximum, the cached atomic size, and the
dropped-message counter. -/
structure ProfilerMessageQueue where
  queue : List ProfilerDataVariant
  maxSize : Nat
  currentSize : Nat
  droppedMessages : Nat
  deriving DecidableEq, Repr

/-- The `ProfilerMessageQueue(maxSize)` constructor: empty queue, zero size,
zero dropped count. -/
def mkQueue (maxSize : Nat) : ProfilerMessageQueue :=
  { queue := [], maxSize := maxSize, currentSize := 0, droppedMessages := 0 }

/-- `ProfilerMessageQueue::PushMessage`: under the queue lock, if the current
size is at or above the maximum, increment the dropped counter and return
false; otherwise enqueue at the back, refresh the cached size, and return
true. -/
def PushMessage (q : ProfilerMessageQueue) (m : ProfilerDataVariant) :
    Bool × ProfilerMessageQueue :=
  if q.maxSize ≤ q.queue.length then
    (false, { q with droppedMessages := q.droppedMessages + 1 })
  else
    let newQueue := q.queue ++ [m]
    (true, { q with queue := newQueue, currentSize := newQueue.length })

/-- `ProfilerMessageQueue::PopMessage`: remove and return the oldest entry,
or `none` when empty. -/
def PopMessage (q : ProfilerMessageQueue) :
    Option ProfilerDataVariant × ProfilerMessageQueue :=
  match q.queue with
  | [] => (none, q)
  | m :: rest => (some m, { q with queue := rest, currentSize := rest.length })

/-- The `while (!_queue.empty() && count < maxCount)` loop body of
`PopMessages`: returns the popped front entries (in pop order) and the
remaining queue contents. -/
def popLoop : List ProfilerDataVariant → Nat → List ProfilerDataVariant × List ProfilerDataVariant
  | xs, 0 => ([], xs)
  | [], _ + 1 => ([], [])
  | x :: xs, n + 1 =>
    let r := popLoop xs n
    (x :: r.1, r.2)

/-- `ProfilerMessageQueue::PopMessages(maxCount)`: pop up to `maxCount`
oldest entries in FIFO order and refresh the cached size. -/
def PopMessages (q : ProfilerMessageQueue) (maxCount : Nat) :
    List ProfilerDataVariant × ProfilerMessageQueue :=
  let r := popLoop q.queue maxCount
  (r.1, { q with queue := r.2, currentSize := r.2.length })

/-- `ProfilerMessageQueue::Size`: the cached atomic count. -/
def ProfilerMessageQueue.Size (q : ProfilerMessageQueue) : Nat :=
  q.currentSize

/-- `ProfilerMessageQueue::Empty`. -/
def ProfilerMessageQueue.Empty (q : ProfilerMessageQueue) : Bool :=
  q.currentSize == 0

/-- `ProfilerMessageQueue::Clear`: discard all entries, reset the size,
leave the dropped counter alone. -/
def ProfilerMessageQueue.Clear (q : ProfilerMessageQueue) : ProfilerMessageQueue :=
  { q with queue := [], currentSize := 0 }

/-- `ProfilerConfig` (`Config.h`): every field `Validate`, the manager or the
server reads. -/
structure ProfilerConfig where
  mEnableNetworking : Bool
  mServerPort : Nat
  mMaxClients : Nat
  mBindAddress : String
  mUpdateMode : eProfilerUpdateMode
  mUpdateFrequencyHz : Rat
  mMaxMessagesPerFrame : Nat
  mCategoryMask : Nat
  mCaptureEngineState : Bool
  mCaptureEntityStates : Bool
  mCaptureChannelStates : Bool
  mCaptureListenerStates : Bool
  mCapturePerformanceMetrics : Bool
  mCaptureEvents : Bool
  mMessageBufferSize : Nat
  mMaxQueuedMessages : Nat
  mUseCompressionForNetwork : Bool
  mPositionChangeThreshold : Rat
  mOrientationChangeThreshold : Rat
  mParameterChangeThreshold : Rat
  mEnableLogging : Bool
  mLoggingLevel : eLogMessageLevel
  mLogFilePath : String
  deriving DecidableEq, Repr

/-- The `ProfilerConfig()` default constructor (`Config.h`): networking on,
port 27002, 8 clients max, timed mode at 30 Hz, 1 MB buffer, 1000 queued
messages, the documented default thresholds. -/
def defaultProfilerConfig : ProfilerConfig :=
  { mEnableNetworking := true
    mServerPort := kDefaultProfilerPort
    mMaxClients := kMaxProfilerClients
    mBindAddress := "127.0.0.1"
    mUpdateMode := .timed
    mUpdateFrequencyHz := 30
    mMaxMessagesPerFrame := 100
    mCategoryMask := 0xFFFFFFFF
    mCaptureEngineState := true
    mCaptureEntityStates := true
    mCaptureChannelStates := true
    mCaptureListenerStates := true
    mCapturePerformanceMetrics := true
    mCaptureEvents := true
    mMessageBufferSize := kProfilerMessageBufferSize
    mMaxQueuedMessages := 1000
    mUseCompressionForNetwork := false
    mPositionChangeThreshold := 1/100
    mOrientationChangeThreshold := 17453/1000000
    mParameterChangeThreshold := 1/100
    mEnableLogging := false
    mLoggingLevel := .debug
    mLogFilePath := "amplitude_profiler.log" }

/-- `ProfilerConfig::Validate`, check for check in source order.  The source
compares `mUpdateFrequencyHz <= 0.0f || mUpdateFrequencyHz > 1000.0f` (not
against the 0.1 lower bound its own error message documents); the orientation
threshold bound `3.14159f` is modelled by its decimal value. -/
def ProfilerConfig.Validate (c : ProfilerConfig) : Bool :=
  if c.mEnableNetworking ∧ c.mServerPort = 0 then false
  else if c.mEnableNetworking ∧ (c.mMaxClients = 0 ∨ kMaxProfilerClients < c.mMaxClients) then false
  else if c.mEnableNetworking ∧ c.mBindAddress = "" then false
  else if c.mUpdateFrequencyHz ≤ 0 ∨ 1000 < c.mUpdateFrequencyHz then false
  else if c.mMaxMessagesPerFrame = 0 ∨ 10000 < c.mMaxMessagesPerFrame then false
  else if c.mMessageBufferSize < 1024 then false
  else if c.mMaxQueuedMessages = 0 ∨ 100000 < c.mMaxQueuedMessages then false
  else if c.mPositionChangeThreshold < 0 ∨ 1000 < c.mPositionChangeThreshold then false
  else if c.mOrientationChangeThreshold < 0 ∨ (314159/100000 : Rat) < c.mOrientationChangeThreshold then false
  else if c.mParameterChangeThreshold < 0 ∨ 1 < c.mParameterChangeThreshold then false
  else if c.mEnableLogging ∧ c.mLogFilePath = "" then false
  else true

/-- `ProfilerManager` state (`Manager.h`): the lifecycle and thread flags, the
abstract presence of the data collector and network server, the stored
configuration, the update interval, the owned message queue, and the two
statistics counters the modelled operations touch. -/
structure ProfilerManager where
  initialized : Bool
  enabled : Bool
  running : Bool
  updateThread : Bool
  dataCollector : Bool
  networkServer : Bool
  config : ProfilerConfig
  updateInterval : Rat
  messageQueue : ProfilerMessageQueue
  statsTotalMessagesSent : Nat
  statsMessagesDropped : Nat
  deriving DecidableEq, Repr

/-- The `ProfilerManager()` constructor: nothing started, default
configuration, 1/30 s interval, a default queue of maximum size 1000. -/
def mkManager : ProfilerManager :=
  { initialized := false
    enabled := false
    running := false
    updateThread := false
    dataCollector := false
    networkServer := false
    config := defaultProfilerConfig
    updateInterval := 1/30
    messageQueue := mkQueue 1000
    statsTotalMessagesSent := 0
    statsMessagesDropped := 0 }

/-- `ProfilerManager::StartUpdateThread`: a no-op when the thread already
exists, otherwise set the running flag and create the thread. -/
def StartUpdateThread (s : ProfilerManager) : ProfilerManager :=
  if s.updateThread then s
  else { s with running := true, updateThread := true }

/-- `ProfilerManager::StopUpdateThread`. -/
def StopUpdateThread (s : ProfilerManager) : ProfilerManager :=
  if s.updateThread then { s with running := false, updateThread := false }
  else s

/-- `ProfilerManager::StartNetworkServer`: already-running is success; the
outcome of `ProfilerServer::Start` (a transport-layer effect) is abstracted
by the oracle `ok` — on failure the freshly created server is reset, so the
server-present flag stays false. -/
def StartNetworkServer (ok : Bool) (s : ProfilerManager) : Bool × ProfilerManager :=
  if s.networkServer then (true, s)
  else if ok then (true, { s with networkServer := true })
  else (false, s)

/-- `ProfilerManager::StopNetworkServer`. -/
def StopNetworkServer (s : ProfilerManager) : ProfilerManager :=
  { s with networkServer := false }

/-- `ProfilerManager::Initialize(config)`, statement for statement: return
true immediately when already initialized; copy the configuration into
`_config` and only then validate it, returning false on failure; compute the
update interval, create the data collector, start the network server when
networking is enabled (propagating its failure), start the update thread,
and set the initialized and enabled flags. -/
def Initialize (ok : Bool) (cfg : ProfilerConfig) (s : ProfilerManager) :
    Bool × ProfilerManager :=
  if s.initialized then (true, s)
  else
    let s1 := { s with config := cfg }
    if !cfg.Validate then (false, s1)
    else
      let s2 := { s1 with updateInterval := 1 / cfg.mUpdateFrequencyHz }
      let s3 := { s2 with dataCollector := true }
      if cfg.mEnableNetworking then
        let r := StartNetworkServer ok s3
        if r.1 then
          let s5 := StartUpdateThread r.2
          (true, { s5 with initialized := true, enabled := true })
        else (false, r.2)
      else
        let s5 := StartUpdateThread s3
        (true, { s5 with initialized := true, enabled := true })

/-- `ProfilerManager::UpdateConfig`: validate before touching anything and
return false on failure; otherwise store the configuration and interval, and
restart the network server when a network-relevant setting changed (the
restart's outcome is ignored, as in the source). -/
def UpdateConfig (ok : Bool) (cfg : ProfilerConfig) (s : ProfilerManager) :
    Bool × ProfilerManager :=
  if !cfg.Validate then (false, s)
  else
    let oldConfig := s.config
    let s1 := { s with config := cfg, updateInterval := 1 / cfg.mUpdateFrequencyHz }
    let s2 :=
      if oldConfig.mEnableNetworking ≠ cfg.mEnableNetworking ∨
          oldConfig.mServerPort ≠ cfg.mServerPort ∨
          oldConfig.mBindAddress ≠ cfg.mBindAddress then
        let s1' := StopNetworkServer s1
        if cfg.mEnableNetworking then (StartNetworkServer ok s1').2 else s1'
      else s1
    (true, s2)

/-- `ProfilerManager::ShouldCaptureCategory`: the configured bitmask ANDed
with the category's flag. -/
def ShouldCaptureCategory (s : ProfilerManager) (category : eProfilerCategory) : Bool :=
  Nat.land s.config.mCategoryMask category.toMask != 0

/-- `ProfilerManager::QueueMessage`: push onto the queue; on a full queue the
manager's own dropped counter is incremented as well. -/
def QueueMessage (s : ProfilerManager) (m : ProfilerDataVariant) : ProfilerManager :=
  let r := PushMessage s.messageQueue m
  if r.1 then { s with messageQueue := r.2 }
  else { s with messageQueue := r.2, statsMessagesDropped := s.statsMessagesDropped + 1 }

/-- `ProfilerManager::CaptureEngineState`: a no-op unless enabled and the
Engine category is unmasked; the collector's fresh snapshot is abstracted by
the parameter `data`. -/
def CaptureEngineState (data : ProfilerEngineData) (s : ProfilerManager) : ProfilerManager :=
  if !s.enabled || !ShouldCaptureCategory s .engine then s
  else if s.dataCollector then QueueMessage s (.engine data) else s

/-- `ProfilerManager::CaptureEntityState(id)`; the collector's snapshot for
the id is abstracted by `data`. -/
def CaptureEntityState (data : ProfilerEntityData) (s : ProfilerManager) : ProfilerManager :=
  if !s.enabled || !ShouldCaptureCategory s .entity then s
  else if s.dataCollector then QueueMessage s (.entity data) else s

/-- `ProfilerManager::CaptureChannelState(id)`; the collector's snapshot for
the id is abstracted by `data`. -/
def CaptureChannelState (data : ProfilerChannelData) (s : ProfilerManager) : ProfilerManager :=
  if !s.enabled || !ShouldCaptureCategory s .channel then s
  else if s.dataCollector then QueueMessage s (.channel data) else s

/-- `ProfilerManager::CaptureListenerState(id)`; the collector's snapshot for
the id is abstracted by `data`. -/
def CaptureListenerState (data : ProfilerListenerData) (s : ProfilerManager) : ProfilerManager :=
  if !s.enabled || !ShouldCaptureCategory s .listener then s
  else if s.dataCollector then QueueMessage s (.listener data) else s

/-- `ProfilerManager::CapturePerformanceMetrics`; the collector's snapshot is
abstracted by `data`. -/
def CapturePerformanceMetrics (data : ProfilerPerformanceData) (s : ProfilerManager) : ProfilerManager :=
  if !s.enabled || !ShouldCaptureCategory s .performance then s
  else if s.dataCollector then QueueMessage s (.performance data) else s

/-- `ProfilerManager::CaptureEvent(event)`: no collector involved; the copy of
the caller's event is enqueued directly. -/
def CaptureEvent (event : ProfilerEvent) (s : ProfilerManager) : ProfilerManager :=
  if !s.enabled || !ShouldCaptureCategory s .events then s
  else QueueMessage s (.event event)

/-- Client identifiers (`ProfilerClientID`, an `AmUInt32`). -/
abbrev ProfilerClientID := Nat

/-- The `ProfilerServer` state the client-table claims concern (`Server.h`):
the table's keys in insertion order, the configured maximum, the id counter
and the connection statistics. -/
structure ProfilerServer where
  running : Bool
  clients : List ProfilerClientID
  maxClients : Nat
  nextClientId : Nat
  statsTotalConnections : Nat
  statsTotalDisconnections : Nat
  statsActiveConnections : Nat
  deriving DecidableEq, Repr

/-- The `ProfilerServer()` constructor followed by `Start(port, addr,
maxClients)`: empty table, id counter at 1. -/
def mkServer (maxClients : Nat) : ProfilerServer :=
  { running := true
    clients := []
    maxClients := maxClients
    nextClientId := 1
    statsTotalConnections := 0
    statsTotalDisconnections := 0
    statsActiveConnections := 0 }

/-- `ProfilerServer::GetClientCount`: the table's size under its lock. -/
def GetClientCount (s : ProfilerServer) : Nat :=
  s.clients.length

/-- `ProfilerServer::_addClient` for the client id `cid`: under the table
lock, when the table is already at `maxClients` the connection's socket is
closed and nothing is inserted (the Bool result is false); otherwise
`_clients[clientId] = info` inserts (or overwrites) the entry and the
statistics are updated. -/
def addClient (s : ProfilerServer) (cid : ProfilerClientID) : ProfilerServer × Bool :=
  if s.maxClients ≤ s.clients.length then (s, false)
  else
    let clients' := if cid ∈ s.clients then s.clients else s.clients ++ [cid]
    ({ s with
        clients := clients'
        statsTotalConnections := s.statsTotalConnections + 1
        statsActiveConnections := clients'.length }, true)

/-- The table mutation of the websocket `.close` handler and of
`ProfilerServer::DisconnectClient`: erase the entry when present and update
the statistics. -/
def removeClient (s : ProfilerServer) (cid : ProfilerClientID) : ProfilerServer :=
  if cid ∈ s.clients then
    let clients' := s.clients.erase cid
    { s with
        clients := clients'
        statsTotalDisconnections := s.statsTotalDisconnections + 1
        statsActiveConnections := clients'.length }
  else s

/-- A connection-lifecycle event against the server's client table. -/
inductive ServerEvent where
  | connect (cid : ProfilerClientID)
  | close (cid : ProfilerClientID)
  deriving DecidableEq, Repr

/-- One table transition per event: the accept path runs `_addClient`, a
close or kick runs the erase path. -/
def serverStep (s : ProfilerServer) (e : ServerEvent) : ProfilerServer :=
  match e with
  | .connect cid => (addClient s cid).1
  | .close cid => removeClient s cid

/-- A sequence of connection events, each handled under the table lock. -/
def runServerEvents (s : ProfilerServer) (evs : List ServerEvent) : ProfilerServer :=
  evs.foldl serverStep s

/-- The three internal mutexes of `ProfilerServer`. -/
inductive ServerLock where
  | clientsMutex
  | statisticsMutex
  | callbacksMutex
  deriving DecidableEq, Repr

/-- A lock-relevant step of a server code path: acquiring or releasing one of
the internal mutexes, or invoking an externally registered callback. -/
inductive ServerAction where
  | lock (l : ServerLock)
  | unlock (l : ServerLock)
  | callbackInvocation (name : String)
  deriving DecidableEq, Repr

/-- The lock/unlock/invoke sequence of `ProfilerServer::_addClient` on its
accepting branch, in source order: table lock around the insert, statistics
lock around the counters, then `_triggerEvent` runs its lambda, which takes
the callbacks lock and invokes `_onClientConnected` inside it. -/
def addClientAcceptTrace : List ServerAction :=
  [.lock .clientsMutex, .unlock .clientsMutex,
   .lock .statisticsMutex, .unlock .statisticsMutex,
   .lock .callbacksMutex, .callbackInvocation "onClientConnected", .unlock .callbacksMutex]

/-- The lock/unlock/invoke sequence of the websocket `.close` handler on its
client-found branch: table lock around the erase, statistics lock, then the
`_triggerEvent` lambda takes the callbacks lock and invokes
`_onClientDisconnected` inside it. -/
def closeHandlerTrace : List ServerAction :=
  [.lock .clientsMutex, .unlock .clientsMutex,
   .lock .statisticsMutex, .unlock .statisticsMutex,
   .lock .callbacksMutex, .callbackInvocation "onClientDisconnected", .unlock .callbacksMutex]

/-- The lock/unlock/invoke sequence of `ProfilerServer::DisconnectClient` on
its client-found branch. -/
def disconnectClientTrace : List ServerAction :=
  [.lock .clientsMutex, .unlock .clientsMutex,
   .lock .statisticsMutex, .unlock .statisticsMutex,
   .lock .callbacksMutex, .callbackInvocation "onClientDisconnected", .unlock .callbacksMutex]

/-- The lock/unlock/invoke sequence of the websocket `.message` handler: the
`_triggerEvent` lambda takes the callbacks lock and invokes
`_onMessageReceived` inside it. -/
def messageHandlerTrace : List ServerAction :=
  [.lock .callbacksMutex, .callbackInvocation "onMessageReceived", .unlock .callbacksMutex]

/-- The lock/unlock/invoke sequence of the listen-failure branch of
`_acceptThreadFunction`: the `_triggerEvent` lambda takes the callbacks lock
and invokes `_onError` inside it. -/
def listenFailureTrace : List ServerAction :=
  [.lock .callbacksMutex, .callbackInvocation "onError", .unlock .callbacksMutex]

/-- Walk a code path's action list and record, for every callback
invocation, the multiset of internal locks held at that moment. -/
def callbackHeldLocks : List ServerLock → List ServerAction → List (String × List ServerLock)
  | _, [] => []
  | held, .lock l :: rest => callbackHeldLocks (held ++ [l]) rest
  | held, .unlock l :: rest => callbackHeldLocks (held.erase l) rest
  | held, .callbackInvocation n :: rest => (n, held) :: callbackHeldLocks held rest

/-- All callback invocations, with held locks, over every server code path
that invokes an external callback. -/
def allCallbackInvocations : List (String × List ServerLock) :=
  callbackHeldLocks [] addClientAcceptTrace ++
  callbackHeldLocks [] closeHandlerTrace ++
  callbackHeldLocks [] disconnectClientTrace ++
  callbackHeldLocks [] messageHandlerTrace ++
  callbackHeldLocks [] listenFailureTrace

/-- A JSON value as built by `_serializeProfilerData` through `Json::Value`. -/
inductive JsonVal where
  | jnum (q : Rat)
  | jstr (s : String)
  | jbool (b : Bool)
  | jarr (xs : List JsonVal)
  | jobj (fields : List (String × JsonVal))

/-- The assignment `root[key] = v` on a JSON object: replace the key's value
when present, append the field otherwise. -/
def jsonSet (o : List (String × JsonVal)) (k : String) (v : JsonVal) :
    List (String × JsonVal) :=
  match o with
  | [] => [(k, v)]
  | (k', v') :: rest => if k' = k then (k, v) :: rest else (k', v') :: jsonSet rest k v

/-- A chain of `root[key] = v` assignments, first to last. -/
def jsonSetAll (o : List (String × JsonVal)) (kvs : List (String × JsonVal)) :
    List (String × JsonVal) :=
  kvs.foldl (fun acc kv => jsonSet acc kv.1 kv.2) o

/-- Reading a field back from the produced object. -/
def jsonGet (o : List (String × JsonVal)) (k : String) : Option JsonVal :=
  match o with
  | [] => none
  | (k', v) :: rest => if k' = k then some v else jsonGet rest k

/-- The three-element position/velocity arrays the encoder appends. -/
def vecArr (v : Vec3) : JsonVal :=
  .jarr [.jnum v.x, .jnum v.y, .jnum v.z]

/-- The four base-field assignments shared by every branch of the
`std::visit` lambda in `ProfilerServer::_serializeProfilerData`, in source
order: timestamp (microseconds since epoch), message id, category value,
priority value. -/
def baseFields (ts msgId : Nat) (cat : eProfilerCategory) (prio : eProfilerPriority) :
    List (String × JsonVal) :=
  [("timestamp", .jnum ts), ("messageId", .jnum msgId),
   ("category", .jnum cat.toMask), ("priority", .jnum prio.toNat)]

/-- The `ProfilerEngineData` branch of `_serializeProfilerData`. -/
def serializeEngine (arg : ProfilerEngineData) : List (String × JsonVal) :=
  jsonSetAll []
    (baseFields arg.mTimestamp arg.mMessageId arg.mCategory arg.mPriority ++
     [("type", .jstr "engine"),
      ("isInitialized", .jbool arg.mIsInitialized),
      ("engineUptime", .jnum arg.mEngineUptime),
      ("configFile", .jstr arg.mConfigFile),
      ("totalEntityCount", .jnum arg.mTotalEntityCount),
      ("activeEntityCount", .jnum arg.mActiveEntityCount),
      ("totalChannelCount", .jnum arg.mTotalChannelCount),
      ("activeChannelCount", .jnum arg.mActiveChannelCount),
      ("totalListenerCount", .jnum arg.mTotalListenerCount),
      ("activeListenerCount", .jnum arg.mActiveListenerCount),
      ("cpuUsagePercent", .jnum arg.mCpuUsagePercent),
      ("memoryUsageBytes", .jnum arg.mMemoryUsageBytes),
      ("activeVoiceCount", .jnum arg.mActiveVoiceCount),
      ("maxVoiceCount", .jnum arg.mMaxVoiceCount),
      ("sampleRate", .jnum arg.mSampleRate),
      ("masterGain", .jnum arg.mMasterGain)])

/-- The `ProfilerEntityData` branch of `_serializeProfilerData`. -/
def serializeEntity (arg : ProfilerEntityData) : List (String × JsonVal) :=
  jsonSetAll []
    (baseFields arg.mTimestamp arg.mMessageId arg.mCategory arg.mPriority ++
     [("type", .jstr "entity"),
      ("entityId", .jnum arg.mEntityId),
      ("position", vecArr arg.mPosition),
      ("velocity", vecArr arg.mVelocity),
      ("activeChannelCount", .jnum arg.mActiveChannelCount),
      ("distanceToListener", .jnum arg.mDistanceToListener),
      ("obstruction", .jnum arg.mObstruction),
      ("occlusion", .jnum arg.mOcclusion)])

/-- The `ProfilerChannelData` branch of `_serializeProfilerData`. -/
def serializeChannel (arg : ProfilerChannelData) : List (String × JsonVal) :=
  jsonSetAll []
    (baseFields arg.mTimestamp arg.mMessageId arg.mCategory arg.mPriority ++
     [("type", .jstr "channel"),
      ("channelId", .jnum arg.mChannelId),
      ("playbackState", .jnum arg.mPlaybackState),
      ("sourceEntityId", .jnum arg.mSourceEntityId),
      ("soundName", .jstr arg.mSoundName),
      ("gain", .jnum arg.mGain),
      ("distanceToListener", .jnum arg.mDistanceToListener)])

/-- The `ProfilerListenerData` branch of `_serializeProfilerData`. -/
def serializeListener (arg : ProfilerListenerData) : List (String × JsonVal) :=
  jsonSetAll []
    (baseFields arg.mTimestamp arg.mMessageId arg.mCategory arg.mPriority ++
     [("type", .jstr "listener"),
      ("listenerId", .jnum arg.mListenerId),
      ("position", vecArr arg.mPosition),
      ("gain", .jnum arg.mGain),
      ("currentEnvironment", .jstr arg.mCurrentEnvironment)])

/-- The `ProfilerPerformanceData` branch of `_serializeProfilerData`. -/
def serializePerformance (arg : ProfilerPerformanceData) : List (String × JsonVal) :=
  jsonSetAll []
    (baseFields arg.mTimestamp arg.mMessageId arg.mCategory arg.mPriority ++
     [("type", .jstr "performance"),
      ("totalCpuUsage", .jnum arg.mTotalCpuUsage),
      ("mixerCpuUsage", .jnum arg.mMixerCpuUsage),
      ("dspCpuUsage", .jnum arg.mDspCpuUsage),
      ("totalAllocatedMemory", .jnum arg.mTotalAllocatedMemory),
      ("engineMemory", .jnum arg.mEngineMemory),
      ("processedSamples", .jnum arg.mProcessedSamples),
      ("latencyMs", .jnum arg.mLatencyMs)])

/-- The `ProfilerEvent` branch of `_serializeProfilerData`. -/
def serializeEvent (arg : ProfilerEvent) : List (String × JsonVal) :=
  jsonSetAll []
    (baseFields arg.mTimestamp arg.mMessageId arg.mCategory arg.mPriority ++
     [("type", .jstr "event"),
      ("eventName", .jstr arg.mEventName),
      ("description", .jstr arg.mDescription),
      ("parameters", .jobj (arg.mParameters.map (fun p => (p.1, JsonVal.jnum p.2))))])

/-- `ProfilerServer::_serializeProfilerData`: the `std::visit` over the
variant, dispatching exhaustively to the six branches above.  The produced
`Json::Value` object is modelled as its ordered field list (the final
`Json::writeString` is a faithful text rendering of exactly this object). -/
def serializeProfilerData : ProfilerDataVariant → List (String × JsonVal)
  | .engine arg => serializeEngine arg
  | .entity arg => serializeEntity arg
  | .channel arg => serializeChannel arg
  | .listener arg => serializeListener arg
  | .performance arg => serializePerformance arg
  | .event arg => serializeEvent arg

/-- The type-discriminator tag of each snapshot kind. -/
def profilerDataTypeTag (data : ProfilerDataVariant) : String :=
  match data with
  | .engine _ => "engine"
  | .entity _ => "entity"
  | .channel _ => "channel"
  | .listener _ => "listener"
  | .performance _ => "performance"
  | .event _ => "event"

/-- The modulus of the 64-bit message-id counter
(`std::atomic<ProfilerMessageID>` with `ProfilerMessageID = AmUInt64`). -/
def kMessageIdModulus : Nat := 2 ^ 64

/-- `ProfilerDataSnapshot::GenerateMessageId`: the atomic pre-increment
`++_sMessageIdCounter`, returning the incremented value (64-bit wrap made
explicit).  Atomicity makes concurrent calls linearizable, so any concurrent
execution assigns the ids of some such sequential run. -/
def GenerateMessageId (counter : Nat) : Nat × Nat :=
  let c' := (counter + 1) % kMessageIdModulus
  (c', c')

/-- The ids assigned by `n` successive snapshot constructions starting from
counter value `c` (the static counter starts at 0). -/
def runConstructions : Nat → Nat → List Nat
  | _, 0 => []
  | c, n + 1 =>
    let r := GenerateMessageId c
    r.1 :: runConstructions r.2 n

/-- A sequence of producer pushes, in order. -/
def pushAll : ProfilerMessageQueue → List ProfilerDataVariant → ProfilerMessageQueue
  | q, [] => q
  | q, m :: ms => pushAll (PushMessage q m).2 ms

/-- How many pushes of the sequence are rejected (return false). -/
def rejectedCount : ProfilerMessageQueue → List ProfilerDataVariant → Nat
  | _, [] => 0
  | q, m :: ms => (if (PushMessage q m).1 then 0 else 1) + rejectedCount (PushMessage q m).2 ms

/-- A sequence of `PopMessages` calls with the given batch limits, returning
all popped messages in pop order and the final queue. -/
def popBatches : ProfilerMessageQueue → List Nat → List ProfilerDataVariant × ProfilerMessageQueue
  | q, [] => ([], q)
  | q, n :: ns =>
    let r := PopMessages q n
    let rest := popBatches r.2 ns
    (r.1 ++ rest.1, rest.2)

lemma PushMessage_succeeds (q : ProfilerMessageQueue) (m : ProfilerDataVariant)
    (h : q.queue.length < q.maxSize) :
    PushMessage q m =
      (true, { q with queue := q.queue ++ [m], currentSize := (q.queue ++ [m]).length }) := by
  rw [PushMessage, if_neg (by omega)]

lemma PushMessage_fails (q : ProfilerMessageQueue) (m : ProfilerDataVariant)
    (h : q.maxSize ≤ q.queue.length) :
    PushMessage q m = (false, { q with droppedMessages := q.droppedMessages + 1 }) := by
  rw [PushMessage, if_pos h]

lemma PushMessage_maxSize (q : ProfilerMessageQueue) (m : ProfilerDataVariant) : (PushMessage q m).2.maxSize = q.maxSize := by
  rw [PushMessage]; split <;> rfl

lemma PushMessage_dropped (q : ProfilerMessageQueue) (m : ProfilerDataVariant) :
    (PushMessage q m).2.droppedMessages =
      q.droppedMessages + (if (PushMessage q m).1 then 0 else 1) := by
  rw [PushMessage]; split <;> simp

lemma PushMessage_inv (q : ProfilerMessageQueue) (m : ProfilerDataVariant) (h : q.currentSize = q.queue.length) :
    (PushMessage q m).2.currentSize = (PushMessage q m).2.queue.length := by
  rw [PushMessage]; split <;> simp [h]

lemma pushAll_cons (q : ProfilerMessageQueue) (m : ProfilerDataVariant) (ms : List ProfilerDataVariant) :
    pushAll q (m :: ms) = pushAll (PushMessage q m).2 ms := rfl

lemma rejectedCount_cons (q : ProfilerMessageQueue) (m : ProfilerDataVariant) (ms : List ProfilerDataVariant) :
    rejectedCount q (m :: ms) =
      (if (PushMessage q m).1 then 0 else 1) + rejectedCount (PushMessage q m).2 ms := rfl

lemma pushAll_maxSize : ∀ (msgs : List ProfilerDataVariant) (q : ProfilerMessageQueue), (pushAll q msgs).maxSize = q.maxSize := by
  intro msgs
  induction msgs with
  | nil => intro q; rfl
  | cons m ms ih => intro q; rw [pushAll_cons, ih, PushMessage_maxSize]

lemma pushAll_inv : ∀ (msgs : List ProfilerDataVariant) (q : ProfilerMessageQueue), q.currentSize = q.queue.length →
    (pushAll q msgs).currentSize = (pushAll q msgs).queue.length := by
  intro msgs
  induction msgs with
  | nil => intro q h; exact h
  | cons m ms ih => intro q h; rw [pushAll_cons]; exact ih _ (PushMessage_inv q m h)

lemma pushAll_dropped : ∀ (msgs : List ProfilerDataVariant) (q : ProfilerMessageQueue),
    (pushAll q msgs).droppedMessages = q.droppedMessages + rejectedCount q msgs := by
  intro msgs
  induction msgs with
  | nil => intro q; simp [pushAll, rejectedCount]
  | cons m ms ih =>
    intro q
    rw [pushAll_cons, rejectedCount_cons, ih, PushMessage_dropped]
    omega

lemma pushAll_queue : ∀ (msgs : List ProfilerDataVariant) (q : ProfilerMessageQueue), q.queue.length ≤ q.maxSize →
    (pushAll q msgs).queue = q.queue ++ msgs.take (q.maxSize - q.queue.length) := by
  intro msgs
  induction msgs with
  | nil => intro q h; simp [pushAll]
  | cons m ms ih =>
    intro q h
    by_cases hfull : q.maxSize ≤ q.queue.length
    · have h0 : q.maxSize - q.queue.length = 0 := Nat.sub_eq_zero_of_le hfull
      rw [pushAll_cons, PushMessage_fails q m hfull, ih _ (by simpa using h)]
      simp [h0]
    · have hlt : q.queue.length < q.maxSize := by omega
      have hsub : q.maxSize - q.queue.length = (q.maxSize - (q.queue.length + 1)) + 1 := by omega
      rw [pushAll_cons, PushMessage_succeeds q m hlt, ih _ (by simp; omega)]
      simp only [List.length_append, List.length_singleton, List.append_assoc,
        List.singleton_append]
      rw [hsub, List.take_succ_cons]


lemma popLoop_eq : ∀ (xs : List ProfilerDataVariant) (n : Nat),
    popLoop xs n = (xs.take n, xs.drop n) := by
  intro xs
  induction xs with
  | nil => intro n; cases n <;> simp [popLoop]
  | cons x xs ih =>
    intro n
    cases n with
    | zero => simp [popLoop]
    | succ n => simp [popLoop, ih n]

lemma PopMessages_eq (q : ProfilerMessageQueue) (n : Nat) :
    PopMessages q n =
      (q.queue.take n,
       { q with queue := q.queue.drop n, currentSize := (q.queue.drop n).length }) := by
  simp [PopMessages, popLoop_eq]

lemma popBatches_spec : ∀ (ns : List Nat) (q : ProfilerMessageQueue),
    (popBatches q ns).1 = q.queue.take ns.sum ∧
    (popBatches q ns).2.queue = q.queue.drop ns.sum := by
  intro ns
  induction ns with
  | nil => intro q; simp [popBatches]
  | cons n ns ih =>
    intro q
    have hrec := ih { q with queue := q.queue.drop n, currentSize := (q.queue.drop n).length }
    simp only [popBatches, PopMessages_eq] at hrec ⊢
    constructor
    · rw [hrec.1, List.sum_cons, List.take_add]
    · rw [hrec.2, List.sum_cons, List.drop_drop, Nat.add_comm]

/-- C1: `PushMessage` succeeds and enqueues exactly when the current size is
below the configured maximum; at or above the maximum it returns false,
leaves the queue contents untouched, and increments the dropped counter by
exactly one; over every push sequence against a fresh queue of maximum `M`,
the size never exceeds `M`, the dropped counter equals the number of
rejected pushes, and the retained contents are the first `M` pushed
messages in order. -/
theorem c1_push_backpressure :
    (∀ (q : ProfilerMessageQueue) (m : ProfilerDataVariant), q.queue.length < q.maxSize →
      (PushMessage q m).1 = true ∧
      (PushMessage q m).2.queue = q.queue ++ [m] ∧
      (PushMessage q m).2.droppedMessages = q.droppedMessages) ∧
    (∀ (q : ProfilerMessageQueue) (m : ProfilerDataVariant), q.maxSize ≤ q.queue.length →
      (PushMessage q m).1 = false ∧
      (PushMessage q m).2.queue = q.queue ∧
      (PushMessage q m).2.droppedMessages = q.droppedMessages + 1) ∧
    (∀ (M : Nat) (msgs : List ProfilerDataVariant),
      (pushAll (mkQueue M) msgs).Size ≤ M ∧
      (pushAll (mkQueue M) msgs).droppedMessages = rejectedCount (mkQueue M) msgs ∧
      (pushAll (mkQueue M) msgs).queue = msgs.take M) := by
  refine ⟨?_, ?_, ?_⟩
  · intro q m h
    rw [PushMessage_succeeds q m h]
    exact ⟨rfl, rfl, rfl⟩
  · intro q m h
    rw [PushMessage_fails q m h]
    exact ⟨rfl, rfl, rfl⟩
  · intro M msgs
    have e1 : (mkQueue M).queue = [] := rfl
    have e2 : (mkQueue M).maxSize = M := rfl
    have e3 : (mkQueue M).droppedMessages = 0 := rfl
    have hqueue := pushAll_queue msgs (mkQueue M) (by simp [mkQueue])
    rw [e1, e2] at hqueue
    simp only [List.length_nil, Nat.sub_zero, List.nil_append] at hqueue
    have hdrop := pushAll_dropped msgs (mkQueue M)
    rw [e3] at hdrop
    have hinv := pushAll_inv msgs (mkQueue M) rfl
    refine ⟨?_, by simpa using hdrop, hqueue⟩
    rw [ProfilerMessageQueue.Size, hinv, hqueue]
    simp only [List.length_take]
    omega

/-- C2: `PopMessages(n)` returns exactly the `min n size` oldest entries in
FIFO order and removes exactly those from the queue; it returns fewer than
`n` exactly when the queue holds fewer than `n` messages; across repeated
batched pops the concatenated results are a prefix of the queue contents —
against a freshly filled queue, the successfully pushed messages in their
push order with none returned twice — and no call blocks. -/
theorem c2_pop_fifo :
    (∀ (q : ProfilerMessageQueue) (n : Nat),
      (PopMessages q n).1 = q.queue.take n ∧
      (PopMessages q n).2.queue = q.queue.drop n ∧
      (PopMessages q n).1.length = min n q.queue.length ∧
      ((PopMessages q n).1.length < n ↔ q.queue.length < n) ∧
      (PopMessages q n).2.Size = q.queue.length - n) ∧
    (∀ (q : ProfilerMessageQueue) (ns : List Nat),
      (popBatches q ns).1 = q.queue.take ns.sum ∧
      (popBatches q ns).2.queue = q.queue.drop ns.sum) ∧
    (∀ (M : Nat) (msgs : List ProfilerDataVariant) (ns : List Nat),
      (popBatches (pushAll (mkQueue M) msgs) ns).1 = (msgs.take M).take ns.sum) := by
  refine ⟨?_, ?_, ?_⟩
  · intro q n
    rw [PopMessages_eq]
    refine ⟨rfl, rfl, by simp, ?_, ?_⟩
    · simp only [List.length_take]
      omega
    · simp [ProfilerMessageQueue.Size]
  · intro q ns
    exact popBatches_spec ns q
  · intro M msgs ns
    have e1 : (mkQueue M).queue = [] := rfl
    have e2 : (mkQueue M).maxSize = M := rfl
    have hpush := pushAll_queue msgs (mkQueue M) (by simp [mkQueue])
    rw [e1, e2] at hpush
    simp only [List.length_nil, Nat.sub_zero, List.nil_append] at hpush
    have hpop := popBatches_spec ns (pushAll (mkQueue M) msgs)
    rw [hpop.1, hpush]

lemma jsonGet_jsonSet_self : ∀ (o : List (String × JsonVal)) (k : String) (v : JsonVal),
    jsonGet (jsonSet o k v) k = some v := by
  intro o k v
  induction o with
  | nil => simp [jsonSet, jsonGet]
  | cons kv rest ih =>
    obtain ⟨k1, v1⟩ := kv
    by_cases h : k1 = k
    · simp [jsonSet, jsonGet, h]
    · simp [jsonSet, jsonGet, h, ih]

lemma jsonGet_jsonSet_ne : ∀ (o : List (String × JsonVal)) (k1 : String) (v : JsonVal)
    (k : String), k1 ≠ k → jsonGet (jsonSet o k1 v) k = jsonGet o k := by
  intro o k1 v k h
  induction o with
  | nil => simp [jsonSet, jsonGet, h]
  | cons kv rest ih =>
    obtain ⟨a, b⟩ := kv
    by_cases ha : a = k1
    · subst ha
      simp [jsonSet, jsonGet, h]
    · simp [jsonSet, jsonGet, ha, ih]

lemma jsonGet_jsonSetAll_not_mem : ∀ (kvs o : List (String × JsonVal)) (k : String),
    k ∉ kvs.map Prod.fst → jsonGet (jsonSetAll o kvs) k = jsonGet o k := by
  intro kvs
  induction kvs with
  | nil => intro o k _; rfl
  | cons kv rest ih =>
    intro o k h
    simp only [List.map_cons, List.mem_cons, not_or] at h
    rw [show jsonSetAll o (kv :: rest) = jsonSetAll (jsonSet o kv.1 kv.2) rest from rfl]
    rw [ih _ _ h.2, jsonGet_jsonSet_ne _ _ _ _ (Ne.symm h.1)]

lemma jsonSetAll_append (o xs ys : List (String × JsonVal)) :
    jsonSetAll o (xs ++ ys) = jsonSetAll (jsonSetAll o xs) ys := by
  simp [jsonSetAll, List.foldl_append]

lemma jsonGet_type_of_shape (b post : List (String × JsonVal)) (v : JsonVal)
    (h : "type" ∉ post.map Prod.fst) :
    jsonGet (jsonSetAll [] (b ++ ("type", v) :: post)) "type" = some v := by
  rw [jsonSetAll_append]
  rw [show jsonSetAll (jsonSetAll [] b) (("type", v) :: post) =
        jsonSetAll (jsonSet (jsonSetAll [] b) "type" v) post from rfl]
  rw [jsonGet_jsonSetAll_not_mem post _ _ h, jsonGet_jsonSet_self]

/-- C7: the wire encoder is a total Lean function defined by an exhaustive
match over all six snapshot kinds (no default branch, no failure path), and
for every snapshot of any kind, reading the `type` discriminator field back
from the encoded object yields exactly the tag of the original kind. -/
theorem c7_serialize_type_roundtrip :
    ∀ d : ProfilerDataVariant,
      jsonGet (serializeProfilerData d) "type" = some (JsonVal.jstr (profilerDataTypeTag d)) := by
  intro d
  cases d <;> exact jsonGet_type_of_shape _ _ _ (by simp)

lemma kMessageIdModulus_pos : 0 < kMessageIdModulus := by
  rw [kMessageIdModulus]; positivity

lemma runConstructions_eq : ∀ (n c : Nat),
    runConstructions c n =
      (List.range n).map (fun k => (c + k + 1) % kMessageIdModulus) := by
  intro n
  induction n with
  | zero => intro c; simp [runConstructions]
  | succ n ih =>
    intro c
    rw [runConstructions, List.range_succ_eq_map]
    simp only [GenerateMessageId, List.map_cons, List.map_map]
    congr 1
    rw [ih ((c + 1) % kMessageIdModulus)]
    congr 1
    funext k
    simp only [Function.comp_apply]
    conv_lhs => rw [Nat.add_assoc, Nat.mod_add_mod]
    congr 1
    omega

lemma runConstructions_get (n k : Nat) (h : k < n) :
    (runConstructions 0 n).get? k = some ((k + 1) % kMessageIdModulus) := by
  rw [runConstructions_eq, List.get?_map, List.get?_range h]
  simp

/-- C3 counterexample: the message-id counter is a 64-bit unsigned atomic, so
over a sequence of `2 ^ 64 + 1` snapshot constructions the construction at
index 0 and the construction at index `2 ^ 64` are assigned the same id 1 —
an id is eventually reused and the sequence is not strictly increasing, so
the claim as stated (over every sequence) is false. -/
theorem c3_counterexample :
    (0 : Nat) ≠ 2 ^ 64 ∧
    (runConstructions 0 (2 ^ 64 + 1)).get? 0 = some 1 ∧
    (runConstructions 0 (2 ^ 64 + 1)).get? (2 ^ 64) = some 1 := by
  refine ⟨by positivity, ?_, ?_⟩
  · rw [runConstructions_get (2 ^ 64 + 1) 0 (by omega)]
    norm_num [kMessageIdModulus]
  · rw [runConstructions_get (2 ^ 64 + 1) (2 ^ 64) (by omega)]
    norm_num [kMessageIdModulus]

/-- C3 (amended): within the first `2 ^ 64 − 1` snapshot constructions of a
process — every physically realizable run — the assigned message ids are
strictly increasing in construction order and never reused: construction `k`
gets id `k + 1`, and earlier constructions always receive strictly smaller
ids.  (Atomicity of the pre-increment makes concurrent constructions
linearizable, so this covers ids assigned across threads.) -/
theorem c3_ids_strictly_increasing (n i j : Nat)
    (hn : n < 2 ^ 64) (hij : i < j) (hj : j < n) :
    (runConstructions 0 n).get? i = some (i + 1) ∧
    (runConstructions 0 n).get? j = some (j + 1) ∧
    i + 1 < j + 1 := by
  have hi : i + 1 < kMessageIdModulus := by
    rw [kMessageIdModulus]; omega
  have hjj : j + 1 < kMessageIdModulus := by
    rw [kMessageIdModulus]; omega
  refine ⟨?_, ?_, by omega⟩
  · rw [runConstructions_get n i (by omega), Nat.mod_eq_of_lt hi]
  · rw [runConstructions_get n j hj, Nat.mod_eq_of_lt hjj]

/-- Witness for the amended C3 theorem at a concrete run of three
constructions. -/
theorem c3_ids_strictly_increasing_witness :
    (runConstructions 0 3).get? 0 = some 1 ∧
    (runConstructions 0 3).get? 1 = some 2 ∧
    (0 : Nat) + 1 < 1 + 1 :=
  c3_ids_strictly_increasing 3 0 1 (by norm_num) (by omega) (by omega)

/-- A concrete event snapshot used in witnesses. -/
def sampleEvent (name : String) : ProfilerEvent :=
  { mTimestamp := 0, mMessageId := 0, mCategory := .events, mPriority := .normal,
    mEventName := name, mDescription := "", mParameters := [] }

def msgA : ProfilerDataVariant := .event (sampleEvent "A")

def msgB : ProfilerDataVariant := .event (sampleEvent "B")

def msgC : ProfilerDataVariant := .event (sampleEvent "C")

/-- A queue of maximum size 2 filled to capacity, as in the spec's scenario. -/
def fullQueue2 : ProfilerMessageQueue := pushAll (mkQueue 2) [msgA, msgB]

/-- Witness for C1 at the spec's scenario (queue of maximum 2): the first push
into the fresh queue succeeds; a push into the full queue of size 2 fails,
changes nothing but the dropped counter, and counts the drop; pushing A, B, C
retains exactly [A, B] and drops one. -/
theorem c1_push_backpressure_witness :
    ((PushMessage (mkQueue 2) msgA).1 = true ∧
     (PushMessage (mkQueue 2) msgA).2.queue = (mkQueue 2).queue ++ [msgA] ∧
     (PushMessage (mkQueue 2) msgA).2.droppedMessages = (mkQueue 2).droppedMessages) ∧
    ((PushMessage fullQueue2 msgC).1 = false ∧
     (PushMessage fullQueue2 msgC).2.queue = fullQueue2.queue ∧
     (PushMessage fullQueue2 msgC).2.droppedMessages = fullQueue2.droppedMessages + 1) ∧
    ((pushAll (mkQueue 2) [msgA, msgB, msgC]).Size ≤ 2 ∧
     (pushAll (mkQueue 2) [msgA, msgB, msgC]).droppedMessages =
       rejectedCount (mkQueue 2) [msgA, msgB, msgC] ∧
     (pushAll (mkQueue 2) [msgA, msgB, msgC]).queue = [msgA, msgB, msgC].take 2) :=
  ⟨c1_push_backpressure.1 (mkQueue 2) msgA (by decide),
   c1_push_backpressure.2.1 fullQueue2 msgC (by decide),
   c1_push_backpressure.2.2 2 [msgA, msgB, msgC]⟩

/-- The default configuration with the update frequency set to 0.05 Hz — a
value outside the documented 0.1–1000 Hz range. -/
def lowFreqConfig : ProfilerConfig :=
  { defaultProfilerConfig with mUpdateFrequencyHz := 1/20 }

/-- C4: the code accepts an out-of-range update frequency.  `Validate`'s own
error message documents the bound "must be 0.1-1000.0 Hz", and the claim
requires rejection outside 0.1–1000 Hz, but the check compares against 0, so
a frequency of 0.05 Hz — positive, below 0.1 — passes validation.  (The
port-zero and max-clients-zero rejections the claim also states do hold, as
the last two conjuncts show.) -/
theorem c4_frequency_bound_not_enforced :
    lowFreqConfig.mEnableNetworking = true ∧
    (0 : Rat) < lowFreqConfig.mUpdateFrequencyHz ∧
    lowFreqConfig.mUpdateFrequencyHz < 1/10 ∧
    lowFreqConfig.Validate = true ∧
    (∀ c : ProfilerConfig, c.mEnableNetworking = true → c.mServerPort = 0 →
      c.Validate = false) ∧
    (∀ c : ProfilerConfig, c.mEnableNetworking = true → c.mMaxClients = 0 →
      c.Validate = false) := by
  refine ⟨rfl, by norm_num [lowFreqConfig, defaultProfilerConfig],
    by norm_num [lowFreqConfig, defaultProfilerConfig], ?_, ?_, ?_⟩
  · norm_num [ProfilerConfig.Validate, lowFreqConfig, defaultProfilerConfig,
      kMaxProfilerClients, kProfilerMessageBufferSize, kDefaultProfilerPort]
    decide
  · intro c h1 h2
    simp [ProfilerConfig.Validate, h1, h2]
  · intro c h1 h2
    simp [ProfilerConfig.Validate, h1, h2]

/-- An invalid configuration: update frequency 0 fails `Validate`. -/
def invalidConfig : ProfilerConfig :=
  { defaultProfilerConfig with mUpdateFrequencyHz := 0 }

lemma invalidConfig_not_valid : invalidConfig.Validate = false := by
  norm_num [ProfilerConfig.Validate, invalidConfig, defaultProfilerConfig,
    kMaxProfilerClients, kProfilerMessageBufferSize, kDefaultProfilerPort]

lemma defaultConfig_valid : defaultProfilerConfig.Validate = true := by
  norm_num [ProfilerConfig.Validate, defaultProfilerConfig,
    kMaxProfilerClients, kProfilerMessageBufferSize, kDefaultProfilerPort]
  decide

/-- C5 counterexample: `Initialize` copies the candidate configuration into
`_config` before validating it, so a failed `Initialize` on a fresh manager
returns false but leaves the rejected configuration stored — the stored
configuration differs from its prior value.  Also, on an already-initialized
manager `Initialize` returns true, not false, even for an invalid
configuration. -/
theorem c5_counterexample :
    invalidConfig.Validate = false ∧
    (Initialize true invalidConfig mkManager).1 = false ∧
    (Initialize true invalidConfig mkManager).2.config ≠ mkManager.config ∧
    (Initialize true defaultProfilerConfig mkManager).2.initialized = true ∧
    (Initialize true invalidConfig
      (Initialize true defaultProfilerConfig mkManager).2).1 = true := by
  have h1 := invalidConfig_not_valid
  have h2 := defaultConfig_valid
  have hmk : mkManager.initialized = false := rfl
  refine ⟨h1, ?_, ?_, ?_, ?_⟩
  · simp [Initialize, h1, hmk]
  · simp [Initialize, h1, hmk]
    intro hc
    have := congrArg ProfilerConfig.mUpdateFrequencyHz hc
    norm_num [invalidConfig, defaultProfilerConfig, mkManager] at this
  · have e1 : defaultProfilerConfig.mEnableNetworking = true := rfl
    have m2 : mkManager.networkServer = false := rfl
    have m3 : mkManager.updateThread = false := rfl
    simp [Initialize, h2, hmk, StartNetworkServer, StartUpdateThread, e1, m2, m3]
  · have e1 : defaultProfilerConfig.mEnableNetworking = true := rfl
    have m2 : mkManager.networkServer = false := rfl
    have m3 : mkManager.updateThread = false := rfl
    have hinit : (Initialize true defaultProfilerConfig mkManager).2.initialized = true := by
      simp [Initialize, h2, hmk, StartNetworkServer, StartUpdateThread, e1, m2, m3]
    set s1 := (Initialize true defaultProfilerConfig mkManager).2 with hs1
    simp [Initialize, hinit]

/-- C5 (amended): `UpdateConfig` with an invalid configuration returns false
and leaves the whole manager state unchanged.  `Initialize` with an invalid
configuration on a not-yet-initialized manager returns false and leaves the
update interval and every started/not-started flag unchanged, but overwrites
the stored configuration with the rejected one; on an already-initialized
manager `Initialize` returns true immediately without validating. -/
theorem c5_invalid_config_rejected :
    (∀ (ok : Bool) (cfg : ProfilerConfig) (s : ProfilerManager), cfg.Validate = false →
      UpdateConfig ok cfg s = (false, s)) ∧
    (∀ (ok : Bool) (cfg : ProfilerConfig) (s : ProfilerManager), cfg.Validate = false →
      s.initialized = false →
      Initialize ok cfg s = (false, { s with config := cfg })) ∧
    (∀ (ok : Bool) (cfg : ProfilerConfig) (s : ProfilerManager), s.initialized = true →
      Initialize ok cfg s = (true, s)) := by
  refine ⟨?_, ?_, ?_⟩
  · intro ok cfg s h
    simp [UpdateConfig, h]
  · intro ok cfg s h h2
    simp [Initialize, h, h2]
  · intro ok cfg s h
    simp [Initialize, h]

/-- Witness for the amended C5 theorem at the fresh manager and the concrete
invalid configuration. -/
theorem c5_invalid_config_rejected_witness :
    UpdateConfig true invalidConfig mkManager = (false, mkManager) ∧
    Initialize true invalidConfig mkManager =
      (false, { mkManager with config := invalidConfig }) :=
  ⟨c5_invalid_config_rejected.1 true invalidConfig mkManager invalidConfig_not_valid,
   c5_invalid_config_rejected.2.1 true invalidConfig mkManager invalidConfig_not_valid rfl⟩

/-- C6: each capture method is a strict no-op — the manager state, its
message queue included, is returned unchanged — whenever capturing is
disabled or the configured category bitmask masks out the method's own
category. -/
theorem c6_capture_masked_noop :
    (∀ (s : ProfilerManager) (d : ProfilerEngineData),
      s.enabled = false ∨ Nat.land s.config.mCategoryMask eProfilerCategory.engine.toMask = 0 →
      CaptureEngineState d s = s) ∧
    (∀ (s : ProfilerManager) (d : ProfilerEntityData),
      s.enabled = false ∨ Nat.land s.config.mCategoryMask eProfilerCategory.entity.toMask = 0 →
      CaptureEntityState d s = s) ∧
    (∀ (s : ProfilerManager) (d : ProfilerChannelData),
      s.enabled = false ∨ Nat.land s.config.mCategoryMask eProfilerCategory.channel.toMask = 0 →
      CaptureChannelState d s = s) ∧
    (∀ (s : ProfilerManager) (d : ProfilerListenerData),
      s.enabled = false ∨ Nat.land s.config.mCategoryMask eProfilerCategory.listener.toMask = 0 →
      CaptureListenerState d s = s) ∧
    (∀ (s : ProfilerManager) (d : ProfilerPerformanceData),
      s.enabled = false ∨
        Nat.land s.config.mCategoryMask eProfilerCategory.performance.toMask = 0 →
      CapturePerformanceMetrics d s = s) ∧
    (∀ (s : ProfilerManager) (d : ProfilerEvent),
      s.enabled = false ∨ Nat.land s.config.mCategoryMask eProfilerCategory.events.toMask = 0 →
      CaptureEvent d s = s) := by
  refine ⟨?_, ?_, ?_, ?_, ?_, ?_⟩
  · rintro s d (h | h) <;> simp [CaptureEngineState, ShouldCaptureCategory, h]
  · rintro s d (h | h) <;> simp [CaptureEntityState, ShouldCaptureCategory, h]
  · rintro s d (h | h) <;> simp [CaptureChannelState, ShouldCaptureCategory, h]
  · rintro s d (h | h) <;> simp [CaptureListenerState, ShouldCaptureCategory, h]
  · rintro s d (h | h) <;> simp [CapturePerformanceMetrics, ShouldCaptureCategory, h]
  · rintro s d (h | h) <;> simp [CaptureEvent, ShouldCaptureCategory, h]

/-- An enabled manager whose category mask is `0xFFFFFFFF` with the Channel
bit (4) cleared, as in the spec's scenario. -/
def maskedManager : ProfilerManager :=
  { mkManager with
      enabled := true
      dataCollector := true
      config := { defaultProfilerConfig with mCategoryMask := 0xFFFFFFFB } }

/-- A concrete channel snapshot for the C6 witness. -/
def sampleChannelData : ProfilerChannelData :=
  { mTimestamp := 0, mMessageId := 0, mCategory := .channel, mPriority := .normal,
    mChannelId := 42, mPlaybackState := 0, mSourceEntityId := 0,
    mSoundName := "", mGain := 1, mDistanceToListener := 0 }

/-- Witness for C6 at the spec's scenario: with the Channel category masked
out, `CaptureChannelState` leaves the manager — and so the queue's size and
contents — unchanged. -/
theorem c6_capture_masked_noop_witness :
    CaptureChannelState sampleChannelData maskedManager = maskedManager :=
  c6_capture_masked_noop.2.2.1 maskedManager sampleChannelData (Or.inr (by decide))

lemma addClient_full (s : ProfilerServer) (cid : ProfilerClientID)
    (h : s.maxClients ≤ GetClientCount s) : addClient s cid = (s, false) := by
  rw [GetClientCount] at h
  rw [addClient, if_pos h]

lemma serverStep_bound (s : ProfilerServer) (e : ServerEvent)
    (h : s.clients.length ≤ s.maxClients) :
    (serverStep s e).clients.length ≤ s.maxClients ∧
    (serverStep s e).maxClients = s.maxClients := by
  cases e with
  | connect cid =>
    by_cases hfull : s.maxClients ≤ s.clients.length
    · simp [serverStep, addClient, hfull]
      omega
    · by_cases hmem : cid ∈ s.clients
      · simp [serverStep, addClient, hfull, hmem]
        omega
      · simp [serverStep, addClient, hfull, hmem]
        omega
  | close cid =>
    by_cases hmem : cid ∈ s.clients
    · have hsub : (s.clients.erase cid).length ≤ s.clients.length :=
        (List.erase_sublist cid s.clients).length_le
      simp [serverStep, removeClient, hmem]
      omega
    · simp [serverStep, removeClient, hmem]
      exact h

lemma runServerEvents_bound : ∀ (evs : List ServerEvent) (s : ProfilerServer),
    s.clients.length ≤ s.maxClients →
    (runServerEvents s evs).clients.length ≤ s.maxClients ∧
    (runServerEvents s evs).maxClients = s.maxClients := by
  intro evs
  induction evs with
  | nil => intro s h; exact ⟨h, rfl⟩
  | cons e evs ih =>
    intro s h
    have hs := serverStep_bound s e h
    have hrec := ih (serverStep s e) (by omega)
    rw [show runServerEvents s (e :: evs) = runServerEvents (serverStep s e) evs from rfl]
    omega

/-- C8: over every sequence of connection events against a server whose table
starts within its limit, `GetClientCount` never exceeds `maxClients`; a
connection arriving while the table is already at `maxClients` is rejected —
the socket is closed and the table is left untouched. -/
theorem c8_client_limit (s : ProfilerServer) (evs : List ServerEvent)
    (h : GetClientCount s ≤ s.maxClients) :
    GetClientCount (runServerEvents s evs) ≤ s.maxClients ∧
    (∀ cid, s.maxClients ≤ GetClientCount s → addClient s cid = (s, false)) :=
  ⟨(runServerEvents_bound evs s h).1, fun cid hfull => addClient_full s cid hfull⟩

/-- A server configured with `maxClients = 1` that accepted one client, as in
the spec's scenario. -/
def fullServer : ProfilerServer := runServerEvents (mkServer 1) [.connect 1]

/-- Witness for C8 at the spec's scenario (`maxClients = 1`, a second
connection attempt): the count stays within 1 and the second connection is
rejected with the table untouched. -/
theorem c8_client_limit_witness :
    GetClientCount (runServerEvents fullServer [ServerEvent.connect 2]) ≤
      fullServer.maxClients ∧
    addClient fullServer 2 = (fullServer, false) :=
  ⟨(c8_client_limit fullServer [ServerEvent.connect 2] (by decide)).1,
   (c8_client_limit fullServer [] (by decide)).2 2 (by decide)⟩

/-- C9 counterexample: on the accepting path of `_addClient`, the connected
callback is invoked from inside the `_triggerEvent` lambda, which holds the
callbacks mutex at that moment — an internal lock of the server — so the
claim that no internal mutex is held when a registered callback runs is
false. -/
theorem c9_counterexample :
    callbackHeldLocks [] addClientAcceptTrace =
      [("onClientConnected", [ServerLock.callbacksMutex])] ∧
    [ServerLock.callbacksMutex] ≠ ([] : List ServerLock) := by
  constructor
  · rfl
  · simp

/-- C9 (amended): on every server code path that invokes an externally
registered callback, neither the client-table lock nor the statistics lock
is held at the moment of the invocation — but the callbacks mutex is held
(each invocation runs inside the callbacks-lock critical section). -/
theorem c9_callbacks_outside_table_and_stats_locks :
    allCallbackInvocations =
      [("onClientConnected", [ServerLock.callbacksMutex]),
       ("onClientDisconnected", [ServerLock.callbacksMutex]),
       ("onClientDisconnected", [ServerLock.callbacksMutex]),
       ("onMessageReceived", [ServerLock.callbacksMutex]),
       ("onError", [ServerLock.callbacksMutex])] ∧
    ∀ e ∈ allCallbackInvocations,
      ServerLock.clientsMutex ∉ e.2 ∧ ServerLock.statisticsMutex ∉ e.2 := by
  have hlist : allCallbackInvocations =
      [("onClientConnected", [ServerLock.callbacksMutex]),
       ("onClientDisconnected", [ServerLock.callbacksMutex]),
       ("onClientDisconnected", [ServerLock.callbacksMutex]),
       ("onMessageReceived", [ServerLock.callbacksMutex]),
       ("onError", [ServerLock.callbacksMutex])] := rfl
  refine ⟨hlist, ?_⟩
  intro e he
  rw [hlist] at he
  simp only [List.mem_cons, List.not_mem_nil, or_false] at he
  rcases he with rfl | rfl | rfl | rfl | rfl <;> simp

/-- C10: the default-constructed configuration — networking on port 27002
with 8 clients, timed mode at 30 Hz, a 1 MB message buffer, 1000 queued
messages and the default thresholds — passes `Validate`, so `Initialize`
with a default configuration never fails validation. -/
theorem c10_default_config_validates :
    defaultProfilerConfig.Validate = true ∧
    defaultProfilerConfig.mServerPort = 27002 ∧
    defaultProfilerConfig.mMaxClients = 8 ∧
    defaultProfilerConfig.mUpdateMode = eProfilerUpdateMode.timed ∧
    defaultProfilerConfig.mUpdateFrequencyHz = 30 ∧
    defaultProfilerConfig.mMessageBufferSize = 1024 * 1024 ∧
    defaultProfilerConfig.mMaxQueuedMessages = 1000 :=
  ⟨defaultConfig_valid, rfl, rfl, rfl, rfl, rfl, rfl⟩

end AmplitudeProfiler
